import Mathlib

/-!
Shallow embedding of `src/pytest_reportportal/plugin.py` (the ReportPortal
pytest plugin's hook module) and proofs about its behaviour.

Conventions of the embedding:
* Python attribute/option values are modelled by `PyVal`, with Python's
  truthiness (`if not value: ...`).
* A pytest `Config` object before this plugin's `pytest_configure` ran is
  `InitialConfig` (command-line option values, ini-file values, the xdist
  `slaveinput` dict, `--collect-only`, and whether the xdist plugin is
  active); the attributes that `pytest_configure` sets on the config are
  collected in `ConfiguredState`.
* Each hook is a pure function; exceptions become `Except PyError`, and the
  calls a hook issues on the `PyTestServiceClass` service object are
  returned as a trace of `RPCall`s.
* `PyTestServiceClass` (defined in `pytest_reportportal/service.py`, outside
  this module) and the dill/pickle handle transfer are external
  collaborators; they are modelled at their interface boundary only.
-/

namespace RPPlugin

/-- A Python value as seen by `get_rp_property`: a string, a boolean, an
`args`-typed ini list, or `None`. -/
inductive PyVal where
  | none
  | str (s : String)
  | bool (b : Bool)
  | args (l : List String)
  deriving Repr, DecidableEq

/-- Python truthiness: `None`, `""`, `False` and `[]` are falsy. -/
def PyVal.truthy : PyVal → Bool
  | .none => false
  | .str s => !s.isEmpty
  | .bool b => b
  | .args l => !l.isEmpty

/-- The Python exceptions the embedded code can raise. -/
inductive PyError where
  | attributeError
  | keyError
  | valueError
  | typeError
  | exception (msg : String)
  deriving Repr, DecidableEq

/-- Modelled from the spec: `PyTestServiceClass`
(`pytest_reportportal/service.py`, not part of this module) is the
Coordinator handed between processes; for the coordination logic in
`plugin.py` only the remote launch identifier it references is relevant
(spec §3 Launch: "remote identifier (assigned asynchronously by the
backend, may be absent briefly after start)"). -/
structure PyTestServiceClass where
  launchId : Option String
  deriving Repr, DecidableEq

/-- Modelled from the spec: the dill/pickle byte payload produced by
`pickle.dumps` on a service object. The spec treats the handle transfer as
"transfer a reference … must be deserializable into an equivalent
Coordinator referencing the same remote Launch" (§6), so the payload is
modelled as carrying the serialized service itself. -/
structure SerializedService where
  payload : PyTestServiceClass
  deriving Repr, DecidableEq

/-- Modelled from the spec: `pickle.dumps`. -/
def pickle_dumps (s : PyTestServiceClass) : SerializedService := ⟨s⟩

/-- Modelled from the spec: `pickle.loads`, the exact inverse of
`pickle_dumps`. -/
def pickle_loads (b : SerializedService) : PyTestServiceClass := b.payload

/-- A pytest config object as this plugin first sees it: resolved
command-line option values (`config.option.<dest>`; an unset dest reads as
`None` via `getattr(…, None)`), user-supplied ini-file values, the xdist
`slaveinput` dict (present exactly on worker processes), `--collect-only`,
and whether the xdist plugin is registered. -/
structure InitialConfig where
  option : String → PyVal
  iniFile : String → Option PyVal
  slaveinput : Option (String → Option SerializedService)
  collectOnly : Bool
  hasXdist : Bool

/-- The ini options registered by `pytest_addoption` via `parser.addini`,
with their defaults: pytest's `getini` falls back to the registered default
(an unset string-typed ini option without an explicit default reads as `""`,
an `args`-typed one as `[]`). `rp_log_level` is registered when pytest's
logging plugin is importable. -/
def addini_registry : List (String × PyVal) :=
  [("rp_log_level", .none),
   ("rp_uuid", .str ""),
   ("rp_endpoint", .str ""),
   ("rp_project", .str ""),
   ("rp_launch", .str "Pytest Launch"),
   ("rp_launch_tags", .args []),
   ("rp_launch_description", .str ""),
   ("rp_log_batch_size", .str "20"),
   ("rp_ignore_errors", .bool false),
   ("rp_ignore_tags", .args []),
   ("rp_mode", .str "DEFAULT")]

/-- `config.getini(name)`: the user-supplied ini value if present, else the
default registered by `pytest_addoption`. (For a name never registered
pytest raises `ValueError`; every name this plugin queries is registered,
and the fallback is never reached in the embedded code.) -/
def getini (cfg : InitialConfig) (name : String) : PyVal :=
  match cfg.iniFile name with
  | some v => v
  | Option.none =>
    match addini_registry.lookup name with
    | some d => d
    | Option.none => .none

/-- `get_rp_property`: the command-line option value when truthy, otherwise
the ini value. (`getattr(config.option, prop_name, None)` never raises, so
the `except AttributeError` branch of the source is dead code.) -/
def get_rp_property (cfg : InitialConfig) (name : String) : PyVal :=
  let value := cfg.option name
  if value.truthy then value else getini cfg name

/-- `is_master`: true iff the config has no `slaveinput` attribute, i.e. the
process is the xdist master node or xdist is not used at all. -/
def is_master (cfg : InitialConfig) : Bool :=
  cfg.slaveinput.isNone

/-- Python `int()` applied to the string value of `rp_log_batch_size`:
an optional sign followed by digits, else `ValueError`. -/
def pyIntOfString (s : String) : Except PyError Int :=
  let core : List Char :=
    match s.data with
    | '-' :: rest => rest
    | '+' :: rest => rest
    | l => l
  let negative : Bool :=
    match s.data with
    | '-' :: _ => true
    | _ => false
  if core ≠ [] ∧ core.all Char.isDigit then
    let n : Int := core.foldl (fun acc c => acc * 10 + (Int.ofNat (c.toNat - '0'.toNat))) 0
    .ok (if negative then -n else n)
  else .error .valueError

/-- Python `int()` on a `PyVal` (`int(True) = 1`, `int(None)`/`int(list)`
raise `TypeError`). -/
def pyInt : PyVal → Except PyError Int
  | .str s => pyIntOfString s
  | .bool b => .ok (if b then 1 else 0)
  | .none => .error .typeError
  | .args _ => .error .typeError

/-- The attributes `pytest_configure` sets on the config object.
`reportportal_enabled` stands for the attribute `_reportportal_enabled`
that `pytest_configure_node` reads; no code in `plugin.py` ever assigns it,
so it is carried as an `Option` that stays `none` (reading an absent
attribute raises `AttributeError`). -/
structure ConfiguredState where
  reportportal_configured : Bool
  reportportal_enabled : Option Bool
  py_test_service : Option PyTestServiceClass
  reporterRegistered : Bool
  deriving Repr, DecidableEq

/-- A call issued on the service object / remote client by the hooks. -/
inductive RPCall where
  | initService (project endpoint uuid : PyVal) (logBatchSize : Int)
      (ignoreErrors : Bool) (ignoredTags : PyVal)
  | startLaunch (name tags description mode : PyVal)
  | collectTests
  | finishLaunch (status : String)
  | terminateService
  | listenerStart
  deriving Repr, DecidableEq

/-- Result of `pytest_configure`: the attributes now set on the config and
the trace of service calls it made. -/
structure ConfigureResult where
  st : ConfiguredState
  calls : List RPCall
  deriving Repr, DecidableEq

/-- A freshly constructed `PyTestServiceClass()`: no remote launch
identifier yet (spec §3: the identifier is assigned asynchronously by the
backend after start-launch). -/
def freshService : PyTestServiceClass := { launchId := Option.none }

/-- `pytest_configure`: resolves project/endpoint/uuid, records
`_reportportal_configured = all([project, endpoint, uuid])` and stops there
when it is false; otherwise builds a fresh service on the master or
deserializes the handle from `slaveinput['py_test_service']` on a worker
(starting the listener there), and registers the report listener. Note that
`_reportportal_enabled` is never assigned. -/
def pytest_configure (cfg : InitialConfig) : Except PyError ConfigureResult :=
  let project := get_rp_property cfg "rp_project"
  let endpoint := get_rp_property cfg "rp_endpoint"
  let uuid := get_rp_property cfg "rp_uuid"
  let configured := project.truthy && endpoint.truthy && uuid.truthy
  if configured = false then
    .ok ⟨⟨false, Option.none, Option.none, false⟩, []⟩
  else
    match cfg.slaveinput with
    | Option.none =>
      .ok ⟨⟨true, Option.none, some freshService, true⟩, []⟩
    | some slave =>
      match slave "py_test_service" with
      | Option.none => .error .keyError
      | some payload =>
        .ok ⟨⟨true, Option.none, some (pickle_loads payload), true⟩, [.listenerStart]⟩

/-- `pytest_configure_node` (runs on the master, once per worker node):
reads `node.config._reportportal_enabled` — an attribute nothing in this
module ever sets — to decide whether to stop, then serializes the service
into the node's `slaveinput['py_test_service']`. Returns the payload
written, if any. -/
def pytest_configure_node (st : ConfiguredState) : Except PyError (Option SerializedService) :=
  match st.reportportal_enabled with
  | Option.none => .error .attributeError
  | some b =>
    if b = false then
      .ok Option.none
    else
      match st.py_test_service with
      | Option.none => .error .attributeError
      | some s => .ok (some (pickle_dumps s))

/-- `LAUNCH_WAIT_TIMEOUT`. Modelled from the spec: the constant is defined
in `pytest_reportportal/__init__.py`, outside this module; the spec (§4.3)
gives "Default bound: configurable, e.g. 300 time units; polling interval
1 time unit". -/
def LAUNCH_WAIT_TIMEOUT : Nat := 300

/-- The loop of `wait_launch`, with time discretized to the 1-second poll
interval: `present t` tells whether `rp_client.launch_id` is observed
non-empty at time `t`, `deadline` is `time.time() + LAUNCH_WAIT_TIMEOUT`
computed on entry. Each iteration checks the launch id, then raises
`Exception("Launch not found")` when past the deadline, else sleeps one
unit. Returns the time at which the id was observed. -/
def wait_loop (present : Nat → Bool) (deadline : Nat) (t : Nat) : Except PyError Nat :=
  if present t then .ok t
  else if deadline < t then .error (.exception "Launch not found")
  else wait_loop present deadline (t + 1)
termination_by deadline + 1 - t
decreasing_by omega

/-- `wait_launch`: polls `rp_client.launch_id` from time `t0` with deadline
`t0 + LAUNCH_WAIT_TIMEOUT`. -/
def wait_launch (present : Nat → Bool) (t0 : Nat) : Except PyError Nat :=
  wait_loop present (t0 + LAUNCH_WAIT_TIMEOUT) t0

/-- The `init_service` and `start_launch` calls `pytest_sessionstart` issues
on the master, with the properties it resolves. -/
def session_start_calls (cfg : InitialConfig) (batch : Int) : List RPCall :=
  [.initService (get_rp_property cfg "rp_project")
      (get_rp_property cfg "rp_endpoint")
      (get_rp_property cfg "rp_uuid")
      batch
      (get_rp_property cfg "rp_ignore_errors").truthy
      (get_rp_property cfg "rp_ignore_tags"),
   .startLaunch (get_rp_property cfg "rp_launch")
      (get_rp_property cfg "rp_launch_tags")
      (get_rp_property cfg "rp_launch_description")
      (get_rp_property cfg "rp_mode")]

/-- `pytest_sessionstart`: no-op under `--collect-only` or when the plugin
is not configured; on the master, calls `init_service` and `start_launch`
with the resolved properties and, when the xdist plugin is active, blocks
in `wait_launch` until the remote launch id is observed or the bounded
wait elapses. `present`/`t0` describe when the asynchronously-assigned
remote launch id becomes observable. -/
def pytest_sessionstart (cfg : InitialConfig) (st : ConfiguredState)
    (present : Nat → Bool) (t0 : Nat) : Except PyError (List RPCall) :=
  if cfg.collectOnly then .ok []
  else if st.reportportal_configured = false then .ok []
  else if is_master cfg then
    match st.py_test_service with
    | Option.none => .error .attributeError
    | some _ =>
      match pyInt (get_rp_property cfg "rp_log_batch_size") with
      | .error e => .error e
      | .ok batch =>
        if cfg.hasXdist then
          match wait_launch present t0 with
          | .ok _ => .ok (session_start_calls cfg batch)
          | .error e => .error e
        else .ok (session_start_calls cfg batch)
  else .ok []

/-- A collected pytest item as the sort key sees it: its source-file path
(`item.fspath`, compared as its path string), its parent (class/module)
name, and its node id (carried only to tell items apart). -/
structure Item where
  fspath : String
  parentName : String
  nodeid : String
  deriving Repr, DecidableEq

/-- The sort key order of `pytest_collection_modifyitems`: Python's tuple
comparison on `(f.fspath, f.parent.name)` — lexicographic, strings by code
points. -/
def itemKeyLE (a b : Item) : Bool :=
  decide (a.fspath < b.fspath) ||
    (decide (a.fspath = b.fspath) && decide (a.parentName ≤ b.parentName))

/-- `pytest_collection_modifyitems`: when configured, stably sorts the
collected items in place by `(f.fspath, f.parent.name)` (Python's
`list.sort` is a stable merge sort); modelled as returning the new list. -/
def pytest_collection_modifyitems (st : ConfiguredState) (items : List Item) : List Item :=
  if st.reportportal_configured = false then items
  else items.mergeSort itemKeyLE

/-- `pytest_collection_finish`: no-op under `--collect-only` or when not
configured; on the master, calls `collect_tests` on the service. -/
def pytest_collection_finish (cfg : InitialConfig) (st : ConfiguredState) :
    Except PyError (List RPCall) :=
  if cfg.collectOnly then .ok []
  else if st.reportportal_configured = false then .ok []
  else if is_master cfg then
    match st.py_test_service with
    | Option.none => .error .attributeError
    | some _ => .ok [.collectTests]
  else .ok []

/-- `pytest_sessionfinish`: no-op under `--collect-only` or when not
configured; otherwise the master calls `finish_launch` with the hardcoded
status string `'RP_Launch'` (the source carries a FixMe about this), and
every process then calls `terminate_service`. -/
def pytest_sessionfinish (cfg : InitialConfig) (st : ConfiguredState) :
    Except PyError (List RPCall) :=
  if cfg.collectOnly then .ok []
  else if st.reportportal_configured = false then .ok []
  else
    match st.py_test_service with
    | Option.none => .error .attributeError
    | some _ =>
      .ok ((if is_master cfg then [RPCall.finishLaunch "RP_Launch"] else []) ++
        [RPCall.terminateService])

/-- Whether a call is a launch-lifecycle call (start-launch or
finish-launch), the calls the worker-coordination protocol reserves to the
owner. -/
def RPCall.isLaunchLifecycle : RPCall → Bool
  | .startLaunch _ _ _ _ => true
  | .finishLaunch _ => true
  | _ => false

/-- Whether a hook result contains a finish-launch call. -/
def hasFinishLaunch (r : Except PyError (List RPCall)) : Bool :=
  match r with
  | .ok calls => calls.any (fun c => match c with | .finishLaunch _ => true | _ => false)
  | .error _ => false

/-- A pristine master config with no ReportPortal value supplied anywhere. -/
def emptyConfig : InitialConfig :=
  { option := fun _ => .none, iniFile := fun _ => Option.none,
    slaveinput := Option.none, collectOnly := false, hasXdist := false }

/-- A master config with project, endpoint and uuid supplied on the command
line. -/
def fullConfig : InitialConfig :=
  { option := fun n =>
      if n = "rp_project" then .str "proj"
      else if n = "rp_endpoint" then .str "http-endpoint"
      else if n = "rp_uuid" then .str "uuid-1"
      else .none,
    iniFile := fun _ => Option.none,
    slaveinput := Option.none, collectOnly := false, hasXdist := false }

/-- `fullConfig` run under `--collect-only`. -/
def collectOnlyConfig : InitialConfig := { fullConfig with collectOnly := true }

/-- `fullConfig` with the xdist plugin active. -/
def xdistConfig : InitialConfig := { fullConfig with hasXdist := true }

/-- A partially configured master config: project and uuid supplied, the
endpoint missing. -/
def partialConfig : InitialConfig :=
  { option := fun n =>
      if n = "rp_project" then .str "proj"
      else if n = "rp_uuid" then .str "uuid-1"
      else .none,
    iniFile := fun _ => Option.none,
    slaveinput := Option.none, collectOnly := false, hasXdist := false }

/-- An xdist worker config carrying a serialized service handle in its
`slaveinput` dict. -/
def workerConfig : InitialConfig :=
  { fullConfig with
    slaveinput := some (fun n =>
      if n = "py_test_service" then some (pickle_dumps { launchId := some "launch-7" })
      else Option.none),
    hasXdist := true }

/-- The config attributes after `pytest_configure` succeeded on a fully
configured master. -/
def configuredMasterState : ConfiguredState :=
  { reportportal_configured := true, reportportal_enabled := Option.none,
    py_test_service := some freshService, reporterRegistered := true }

/-- The config attributes after `pytest_configure` found the configuration
incomplete. -/
def unconfiguredState : ConfiguredState :=
  { reportportal_configured := false, reportportal_enabled := Option.none,
    py_test_service := Option.none, reporterRegistered := false }

/-- Collected items from two files with interleaved suite order, including
two parametrized-style items sharing the `(fspath, parent)` key. -/
def sampleItems : List Item :=
  [⟨"b.py", "D", "b.py::D::test_x"⟩,
   ⟨"a.py", "C", "a.py::C::test_p[1]"⟩,
   ⟨"a.py", "C", "a.py::C::test_p[0]"⟩,
   ⟨"a.py", "B", "a.py::B::test_y"⟩]

/-! Helper lemmas about the embedded definitions. -/

theorem wait_loop_unfold (present : Nat → Bool) (deadline t : Nat) :
    wait_loop present deadline t =
      if present t then .ok t
      else if deadline < t then .error (.exception "Launch not found")
      else wait_loop present deadline (t + 1) := by
  rw [wait_loop]

/-- Full characterization of the polling loop of `wait_launch`: started at
any time `t ≤ deadline + 1` it either returns the first observation time of
the launch id (which is at most `deadline + 1`) or, when the id is never
observed in that window, raises `Exception("Launch not found")`. In
particular the loop always terminates. -/
theorem wait_loop_spec (present : Nat → Bool) (deadline t : Nat) (ht : t ≤ deadline + 1) :
    (∃ t2, t ≤ t2 ∧ t2 ≤ deadline + 1 ∧
        wait_loop present deadline t = .ok t2 ∧ present t2 = true) ∨
    (wait_loop present deadline t = .error (.exception "Launch not found") ∧
        ∀ t2, t ≤ t2 → t2 ≤ deadline + 1 → present t2 = false) := by
  by_cases hp : present t = true
  · exact Or.inl ⟨t, Nat.le_refl t, ht, by rw [wait_loop_unfold, if_pos hp], hp⟩
  · have hp' : present t = false := by simpa using hp
    by_cases hd : deadline < t
    · refine Or.inr ⟨by rw [wait_loop_unfold, if_neg (by simp [hp']), if_pos hd], ?_⟩
      intro t2 h1 h2
      have h3 : t2 = t := by omega
      rw [h3]; exact hp'
    · have heq : wait_loop present deadline t = wait_loop present deadline (t + 1) := by
        rw [wait_loop_unfold, if_neg (by simp [hp']), if_neg hd]
      rcases wait_loop_spec present deadline (t + 1) (by omega) with
        ⟨t2, ha, hb, hc, hp2⟩ | ⟨he, hall⟩
      · exact Or.inl ⟨t2, by omega, hb, by rw [heq]; exact hc, hp2⟩
      · refine Or.inr ⟨by rw [heq]; exact he, ?_⟩
        intro t2 h1 h2
        rcases Nat.eq_or_lt_of_le h1 with h | h
        · rw [← h]; exact hp'
        · exact hall t2 h h2
termination_by deadline + 1 - t

theorem itemKeyLE_trans (a b c : Item) (h1 : itemKeyLE a b = true)
    (h2 : itemKeyLE b c = true) : itemKeyLE a c = true := by
  simp only [itemKeyLE, Bool.or_eq_true, Bool.and_eq_true, decide_eq_true_eq] at h1 h2 ⊢
  rcases h1 with h1 | ⟨h1e, h1p⟩
  · rcases h2 with h2 | ⟨h2e, _⟩
    · exact Or.inl (h1.trans h2)
    · exact Or.inl (lt_of_lt_of_le h1 (le_of_eq h2e))
  · rcases h2 with h2 | ⟨h2e, h2p⟩
    · exact Or.inl (lt_of_le_of_lt (le_of_eq h1e) h2)
    · exact Or.inr ⟨h1e.trans h2e, h1p.trans h2p⟩

theorem itemKeyLE_total (a b : Item) : (itemKeyLE a b || itemKeyLE b a) = true := by
  simp only [itemKeyLE, Bool.or_eq_true, Bool.and_eq_true, decide_eq_true_eq]
  rcases lt_trichotomy a.fspath b.fspath with h | h | h
  · exact Or.inl (Or.inl h)
  · rcases le_total a.parentName b.parentName with h2 | h2
    · exact Or.inl (Or.inr ⟨h, h2⟩)
    · exact Or.inr (Or.inr ⟨h.symm, h2⟩)
  · exact Or.inr (Or.inl h)

/-- Stability of the item sort: filtering the sorted list down to any class
of pairwise-`itemKeyLE`-related items (in particular: the items of one
`(fspath, parent.name)` key) gives exactly the corresponding filtering of
the input, in input order. -/
theorem filter_mergeSort_eq (items : List Item) (p : Item → Bool)
    (hp : ∀ a b, p a = true → p b = true → itemKeyLE a b = true) :
    (items.mergeSort itemKeyLE).filter p = items.filter p := by
  have hpair : (items.filter p).Pairwise (fun a b => itemKeyLE a b = true) :=
    List.pairwise_of_forall_mem_list (fun a ha b hb =>
      hp a b (List.of_mem_filter ha) (List.of_mem_filter hb))
  have hsub : List.Sublist (items.filter p) (items.mergeSort itemKeyLE) :=
    List.sublist_mergeSort itemKeyLE_trans itemKeyLE_total hpair (List.filter_sublist items)
  have hidem : (items.filter p).filter p = items.filter p := by
    rw [List.filter_eq_self]
    intro a ha
    exact List.of_mem_filter ha
  have hsub2 : List.Sublist (items.filter p) ((items.mergeSort itemKeyLE).filter p) := by
    have h3 := hsub.filter p
    rwa [hidem] at h3
  have hperm : List.Perm ((items.mergeSort itemKeyLE).filter p) (items.filter p) :=
    (List.mergeSort_perm items itemKeyLE).filter p
  exact (hsub2.eq_of_length hperm.length_eq.symm).symm

/-- `pytest_configure` never assigns the `_reportportal_enabled` attribute:
whatever state it returns, that attribute is still absent. -/
theorem pytest_configure_enabled_none (cfg : InitialConfig) (res : ConfigureResult)
    (h : pytest_configure cfg = .ok res) : res.st.reportportal_enabled = Option.none := by
  simp only [pytest_configure] at h
  split at h
  · simp only [Except.ok.injEq] at h; subst h; rfl
  · split at h
    · simp only [Except.ok.injEq] at h; subst h; rfl
    · split at h
      · exact absurd h (by simp)
      · simp only [Except.ok.injEq] at h; subst h; rfl

/-! Claim theorems. -/

/-- Claim C1. For every configuration in which any of project, endpoint or
access token is missing, `pytest_configure` marks the run unconfigured and
the session-start, collection-modifyitems, collection-finish and
session-finish hooks all return immediately with no error and no remote
call — but the configure-node hook for a worker does NOT: it reads the
never-assigned attribute `_reportportal_enabled` and raises
`AttributeError`, contradicting the claim (and the source's own "stop now"
comment) for that hook. -/
theorem rp_unconfigured_pipeline (cfg : InitialConfig) (present : Nat → Bool)
    (t0 : Nat) (items : List Item)
    (h : ((get_rp_property cfg "rp_project").truthy &&
          (get_rp_property cfg "rp_endpoint").truthy &&
          (get_rp_property cfg "rp_uuid").truthy) = false) :
    pytest_configure cfg = .ok ⟨unconfiguredState, []⟩ ∧
    pytest_sessionstart cfg unconfiguredState present t0 = .ok [] ∧
    pytest_collection_modifyitems unconfiguredState items = items ∧
    pytest_collection_finish cfg unconfiguredState = .ok [] ∧
    pytest_sessionfinish cfg unconfiguredState = .ok [] ∧
    pytest_configure_node unconfiguredState = .error .attributeError := by
  refine ⟨?_, ?_, rfl, ?_, ?_, rfl⟩
  · simp only [pytest_configure, h, unconfiguredState]
    rfl
  · cases hco : cfg.collectOnly <;> simp [pytest_sessionstart, hco, unconfiguredState]
  · cases hco : cfg.collectOnly <;> simp [pytest_collection_finish, hco, unconfiguredState]
  · cases hco : cfg.collectOnly <;> simp [pytest_sessionfinish, hco, unconfiguredState]

/-- Witness for `rp_unconfigured_pipeline` at a concrete config with no
values supplied at all. -/
theorem rp_unconfigured_pipeline_instance :
    (((get_rp_property emptyConfig "rp_project").truthy &&
      (get_rp_property emptyConfig "rp_endpoint").truthy &&
      (get_rp_property emptyConfig "rp_uuid").truthy) = false) ∧
    (pytest_configure emptyConfig = .ok ⟨unconfiguredState, []⟩ ∧
     pytest_sessionstart emptyConfig unconfiguredState (fun _ => true) 0 = .ok [] ∧
     pytest_collection_modifyitems unconfiguredState sampleItems = sampleItems ∧
     pytest_collection_finish emptyConfig unconfiguredState = .ok [] ∧
     pytest_sessionfinish emptyConfig unconfiguredState = .ok [] ∧
     pytest_configure_node unconfiguredState = .error .attributeError) :=
  ⟨by decide, rp_unconfigured_pipeline emptyConfig (fun _ => true) 0 sampleItems (by decide)⟩

/-- Claim C2. At session end the owner's finish-launch call does NOT report
an aggregate launch status: the source passes the hardcoded string
`'RP_Launch'` (marked FixMe there), regardless of item outcomes, so the
reported status is never `failed` nor `passed`. -/
theorem rp_finish_status_hardcoded (cfg : InitialConfig) (st : ConfiguredState)
    (s : PyTestServiceClass)
    (hco : cfg.collectOnly = false) (hc : st.reportportal_configured = true)
    (hs : st.py_test_service = some s) (hm : is_master cfg = true) :
    pytest_sessionfinish cfg st =
      .ok [RPCall.finishLaunch "RP_Launch", RPCall.terminateService] ∧
    "RP_Launch" ≠ "failed" ∧ "RP_Launch" ≠ "passed" := by
  refine ⟨?_, by decide, by decide⟩
  simp [pytest_sessionfinish, hco, hc, hs, hm]

/-- Witness for `rp_finish_status_hardcoded` on a fully configured master. -/
theorem rp_finish_status_hardcoded_instance :
    pytest_sessionfinish fullConfig configuredMasterState =
      .ok [RPCall.finishLaunch "RP_Launch", RPCall.terminateService] ∧
    "RP_Launch" ≠ "failed" ∧ "RP_Launch" ≠ "passed" :=
  rp_finish_status_hardcoded fullConfig configuredMasterState freshService
    rfl rfl rfl rfl

/-- Claim C8. The coordinator handle never round-trips from the owner to a
worker: on any config state that `pytest_configure` can produce,
`pytest_configure_node` raises `AttributeError` (it reads the attribute
`_reportportal_enabled`, which `pytest_configure` never assigns) before
serializing the handle, so no worker ever receives it. -/
theorem rp_configure_node_raises (cfg : InitialConfig) (res : ConfigureResult)
    (h : pytest_configure cfg = .ok res) :
    pytest_configure_node res.st = .error .attributeError := by
  rw [pytest_configure_node, pytest_configure_enabled_none cfg res h]

/-- Witness for `rp_configure_node_raises` on a fully configured master. -/
theorem rp_configure_node_raises_instance :
    pytest_configure_node configuredMasterState = .error .attributeError :=
  rp_configure_node_raises fullConfig ⟨configuredMasterState, []⟩ rfl

/-- Claim C9. Every optional configuration value resolves to its documented
default when not supplied: log batch size `'20'` (converted to the integer
20 by session start), mode `DEFAULT`, ignore-errors `False` (falsy under
the `bool()` conversion), launch name `Pytest Launch`, and empty launch
description. -/
theorem rp_option_defaults (cfg : InitialConfig)
    (h1 : cfg.option "rp_log_batch_size" = .none)
    (h2 : cfg.iniFile "rp_log_batch_size" = Option.none)
    (h3 : cfg.option "rp_mode" = .none)
    (h4 : cfg.iniFile "rp_mode" = Option.none)
    (h5 : cfg.option "rp_ignore_errors" = .none)
    (h6 : cfg.iniFile "rp_ignore_errors" = Option.none)
    (h7 : cfg.option "rp_launch" = .none)
    (h8 : cfg.iniFile "rp_launch" = Option.none)
    (h9 : cfg.option "rp_launch_description" = .none)
    (h10 : cfg.iniFile "rp_launch_description" = Option.none) :
    get_rp_property cfg "rp_log_batch_size" = .str "20" ∧
    pyInt (get_rp_property cfg "rp_log_batch_size") = .ok 20 ∧
    get_rp_property cfg "rp_mode" = .str "DEFAULT" ∧
    get_rp_property cfg "rp_ignore_errors" = .bool false ∧
    (get_rp_property cfg "rp_ignore_errors").truthy = false ∧
    get_rp_property cfg "rp_launch" = .str "Pytest Launch" ∧
    get_rp_property cfg "rp_launch_description" = .str "" := by
  have e1 : get_rp_property cfg "rp_log_batch_size" = .str "20" := by
    simp [get_rp_property, getini, h1, h2, PyVal.truthy]
    decide
  have e3 : get_rp_property cfg "rp_mode" = .str "DEFAULT" := by
    simp [get_rp_property, getini, h3, h4, PyVal.truthy]
    decide
  have e5 : get_rp_property cfg "rp_ignore_errors" = .bool false := by
    simp [get_rp_property, getini, h5, h6, PyVal.truthy]
    decide
  have e7 : get_rp_property cfg "rp_launch" = .str "Pytest Launch" := by
    simp [get_rp_property, getini, h7, h8, PyVal.truthy]
    decide
  have e9 : get_rp_property cfg "rp_launch_description" = .str "" := by
    simp [get_rp_property, getini, h9, h10, PyVal.truthy]
    decide
  exact ⟨e1, by rw [e1]; rfl, e3, e5, by rw [e5]; rfl, e7, e9⟩

/-- Claim C3. After the owner starts the launch it blocks in `wait_launch`
exactly when the xdist subsystem is active, and the wait is bounded: either
the remote launch id is observed at some poll time within
`LAUNCH_WAIT_TIMEOUT` (+1 final check) of the start and the hook returns
its calls, or the wait elapses with the id never observed and the hook
fails fatally with `Exception("Launch not found")` — it never blocks
indefinitely. -/
theorem rp_owner_wait_bounded (cfg : InitialConfig) (st : ConfiguredState)
    (s : PyTestServiceClass) (present : Nat → Bool) (t0 : Nat) (batch : Int)
    (hco : cfg.collectOnly = false) (hc : st.reportportal_configured = true)
    (hm : is_master cfg = true) (hs : st.py_test_service = some s)
    (hb : pyInt (get_rp_property cfg "rp_log_batch_size") = .ok batch) :
    (cfg.hasXdist = false →
       pytest_sessionstart cfg st present t0 = .ok (session_start_calls cfg batch)) ∧
    (cfg.hasXdist = true →
       pytest_sessionstart cfg st present t0 =
         (wait_launch present t0).map (fun _ => session_start_calls cfg batch)) ∧
    ((∃ t2, t0 ≤ t2 ∧ t2 ≤ t0 + LAUNCH_WAIT_TIMEOUT + 1 ∧
        wait_launch present t0 = .ok t2 ∧ present t2 = true) ∨
     (wait_launch present t0 = .error (.exception "Launch not found") ∧
        ∀ t2, t0 ≤ t2 → t2 ≤ t0 + LAUNCH_WAIT_TIMEOUT + 1 → present t2 = false)) := by
  refine ⟨?_, ?_, ?_⟩
  · intro hx
    simp [pytest_sessionstart, hco, hc, hm, hs, hb, hx]
  · intro hx
    cases hw : wait_launch present t0 with
    | ok t2 => simp [pytest_sessionstart, hco, hc, hm, hs, hb, hx, hw, Except.map]
    | error e => simp [pytest_sessionstart, hco, hc, hm, hs, hb, hx, hw, Except.map]
  · have h := wait_loop_spec present (t0 + LAUNCH_WAIT_TIMEOUT) t0 (by omega)
    simpa [wait_launch] using h

/-- Witness for `rp_owner_wait_bounded`: with xdist active the hook's
result is exactly the wait's outcome mapped onto the start calls. -/
theorem rp_owner_wait_bounded_instance :
    pytest_sessionstart xdistConfig configuredMasterState (fun _ => true) 0 =
      (wait_launch (fun _ => true) 0).map
        (fun _ => session_start_calls xdistConfig 20) :=
  (rp_owner_wait_bounded xdistConfig configuredMasterState freshService
      (fun _ => true) 0 20 rfl rfl rfl rfl rfl).2.1 rfl

/-- Claim C4. When configured, collection-modifyitems sorts the collected
items by the key `(fspath, parent.name)`: the result is a permutation of
the input, pairwise ordered under the key order, and — because the sort is
stable — the items of any single key (e.g. the parametrized tests of one
class) appear in exactly their engine-produced relative order. -/
theorem rp_items_sorted_stable (st : ConfiguredState) (items : List Item)
    (hc : st.reportportal_configured = true) :
    List.Perm (pytest_collection_modifyitems st items) items ∧
    (pytest_collection_modifyitems st items).Pairwise (fun a b => itemKeyLE a b = true) ∧
    ∀ fp pn,
      (pytest_collection_modifyitems st items).filter
          (fun i => i.fspath == fp && i.parentName == pn) =
        items.filter (fun i => i.fspath == fp && i.parentName == pn) := by
  have hdef : pytest_collection_modifyitems st items = items.mergeSort itemKeyLE := by
    simp [pytest_collection_modifyitems, hc]
  refine ⟨?_, ?_, ?_⟩
  · rw [hdef]; exact List.mergeSort_perm items itemKeyLE
  · rw [hdef]; exact List.sorted_mergeSort itemKeyLE_trans itemKeyLE_total items
  · intro fp pn
    rw [hdef]
    apply filter_mergeSort_eq
    intro a b ha hb
    simp only [Bool.and_eq_true, beq_iff_eq] at ha hb
    simp [itemKeyLE, ha.1, ha.2, hb.1, hb.2]

/-- Witness for `rp_items_sorted_stable`: the two parametrized items of
class `C` in `a.py` keep their engine order after the sort. -/
theorem rp_items_sorted_stable_instance :
    (pytest_collection_modifyitems configuredMasterState sampleItems).filter
        (fun i => i.fspath == "a.py" && i.parentName == "C") =
      sampleItems.filter (fun i => i.fspath == "a.py" && i.parentName == "C") :=
  (rp_items_sorted_stable configuredMasterState sampleItems rfl).2.2 "a.py" "C"

/-- Claim C5. A process is the owner exactly when no `slaveinput` context
is present on its config (a fact fixed by the config alone), and a
follower's session start and session finish issue no start-launch or
finish-launch call. -/
theorem rp_owner_iff_follower_silent (cfgA cfgB cfgW : InitialConfig)
    (st : ConfiguredState) (present : Nat → Bool) (t0 : Nat)
    (hAB : cfgA.slaveinput = cfgB.slaveinput) (hw : is_master cfgW = false) :
    (is_master cfgA = true ↔ cfgA.slaveinput = Option.none) ∧
    is_master cfgA = is_master cfgB ∧
    pytest_sessionstart cfgW st present t0 = .ok [] ∧
    ∀ calls, pytest_sessionfinish cfgW st = .ok calls →
      ∀ c ∈ calls, c.isLaunchLifecycle = false := by
  refine ⟨?_, ?_, ?_, ?_⟩
  · simp [is_master, Option.isNone_iff_eq_none]
  · simp [is_master, hAB]
  · cases hco : cfgW.collectOnly <;>
      cases hcc : st.reportportal_configured <;>
        simp [pytest_sessionstart, hco, hcc, hw]
  · intro calls hcalls c hmem
    by_cases hco : cfgW.collectOnly = true
    · simp only [pytest_sessionfinish, hco, if_true, Except.ok.injEq] at hcalls
      subst hcalls; simp at hmem
    · by_cases hcc : st.reportportal_configured = false
      · simp [pytest_sessionfinish, hco, hcc] at hcalls
        subst hcalls; simp at hmem
      · cases hsvc : st.py_test_service with
        | none => simp [pytest_sessionfinish, hco, hcc, hsvc] at hcalls
        | some s =>
          simp [pytest_sessionfinish, hco, hcc, hsvc, hw] at hcalls
          subst hcalls
          simp at hmem
          subst hmem
          rfl

/-- Witness for `rp_owner_iff_follower_silent` at a concrete worker config:
its session start issues no calls and its session finish issues only the
(non-launch-lifecycle) terminate call. -/
theorem rp_owner_iff_follower_silent_instance :
    pytest_sessionstart workerConfig configuredMasterState (fun _ => true) 0 = .ok [] ∧
    RPCall.isLaunchLifecycle RPCall.terminateService = false :=
  ⟨(rp_owner_iff_follower_silent emptyConfig fullConfig workerConfig
      configuredMasterState (fun _ => true) 0 rfl rfl).2.2.1,
   (rp_owner_iff_follower_silent emptyConfig fullConfig workerConfig
      configuredMasterState (fun _ => true) 0 rfl rfl).2.2.2
     [RPCall.terminateService] rfl RPCall.terminateService (List.mem_singleton_self _)⟩

/-- Counterexample to claim C6: on a fully configured owner run in
collection-only mode, session finish returns immediately with no calls at
all — no best-effort finish-launch is attempted. -/
theorem rp_collect_only_skips_finish :
    pytest_configure collectOnlyConfig = .ok ⟨configuredMasterState, []⟩ ∧
    is_master collectOnlyConfig = true ∧
    pytest_sessionfinish collectOnlyConfig configuredMasterState = .ok [] ∧
    hasFinishLaunch (pytest_sessionfinish collectOnlyConfig configuredMasterState) = false :=
  ⟨rfl, rfl, rfl, rfl⟩

/-- Claim C6 as amended: in collection-only mode both session start and
session finish are no-ops (no launch is started, and none is finished);
for any other configured session end the owner does attempt the
finish-launch call. -/
theorem rp_finish_attempted_unless_collect_only (cfgA cfgB : InitialConfig)
    (stA stB : ConfiguredState) (s : PyTestServiceClass)
    (present : Nat → Bool) (t0 : Nat)
    (hA : cfgA.collectOnly = true)
    (hBco : cfgB.collectOnly = false) (hBc : stB.reportportal_configured = true)
    (hBs : stB.py_test_service = some s) (hBm : is_master cfgB = true) :
    pytest_sessionstart cfgA stA present t0 = .ok [] ∧
    pytest_sessionfinish cfgA stA = .ok [] ∧
    pytest_sessionfinish cfgB stB =
      .ok [RPCall.finishLaunch "RP_Launch", RPCall.terminateService] := by
  refine ⟨?_, ?_, ?_⟩
  · simp [pytest_sessionstart, hA]
  · simp [pytest_sessionfinish, hA]
  · simp [pytest_sessionfinish, hBco, hBc, hBs, hBm]

/-- Witness for `rp_finish_attempted_unless_collect_only` at concrete
configs. -/
theorem rp_finish_attempted_unless_collect_only_instance :
    pytest_sessionstart collectOnlyConfig configuredMasterState (fun _ => true) 0 = .ok [] ∧
    pytest_sessionfinish collectOnlyConfig configuredMasterState = .ok [] ∧
    pytest_sessionfinish fullConfig configuredMasterState =
      .ok [RPCall.finishLaunch "RP_Launch", RPCall.terminateService] :=
  rp_finish_attempted_unless_collect_only collectOnlyConfig fullConfig
    configuredMasterState configuredMasterState freshService (fun _ => true) 0
    rfl rfl rfl rfl rfl

/-- Counterexample to claim C7: with project and uuid supplied but the
endpoint missing, `pytest_configure` returns normally with an empty call
trace and session start returns `ok []` — nothing is reported to the user,
the run proceeds silently. -/
theorem rp_partial_config_silent :
    (get_rp_property partialConfig "rp_project").truthy = true ∧
    (get_rp_property partialConfig "rp_endpoint").truthy = false ∧
    pytest_configure partialConfig = .ok ⟨unconfiguredState, []⟩ ∧
    pytest_sessionstart partialConfig unconfiguredState (fun _ => true) 0 = .ok [] :=
  ⟨rfl, rfl, rfl, rfl⟩

/-- Claim C7 as amended: a partial configuration (some of
project/endpoint/uuid present, not all) is not reported at all — the
plugin silently marks itself unconfigured at configure time, raising no
error, issuing no call, and session start likewise returns immediately. -/
theorem rp_partial_config_no_report (cfg : InitialConfig) (present : Nat → Bool)
    (t0 : Nat)
    (hsome : (get_rp_property cfg "rp_project").truthy = true)
    (hmiss : ((get_rp_property cfg "rp_project").truthy &&
              (get_rp_property cfg "rp_endpoint").truthy &&
              (get_rp_property cfg "rp_uuid").truthy) = false) :
    pytest_configure cfg = .ok ⟨unconfiguredState, []⟩ ∧
    pytest_sessionstart cfg unconfiguredState present t0 = .ok [] := by
  constructor
  · simp only [pytest_configure, hmiss, unconfiguredState]
    rfl
  · cases hco : cfg.collectOnly <;> simp [pytest_sessionstart, hco, unconfiguredState]

/-- Witness for `rp_partial_config_no_report` at the concrete partial
config. -/
theorem rp_partial_config_no_report_instance :
    pytest_configure partialConfig = .ok ⟨unconfiguredState, []⟩ ∧
    pytest_sessionstart partialConfig unconfiguredState (fun _ => false) 3 = .ok [] :=
  rp_partial_config_no_report partialConfig (fun _ => false) 3 rfl rfl

/-- Claim C10. At session finish of a configured, non-collect-only run,
every process's hook issues the terminate-service call, and it issues a
finish-launch call if and only if the process is the owner. -/
theorem rp_finish_terminates_all (cfg : InitialConfig) (st : ConfiguredState)
    (s : PyTestServiceClass)
    (hco : cfg.collectOnly = false) (hc : st.reportportal_configured = true)
    (hs : st.py_test_service = some s) :
    ∃ calls, pytest_sessionfinish cfg st = .ok calls ∧
      RPCall.terminateService ∈ calls ∧
      ((∃ status, RPCall.finishLaunch status ∈ calls) ↔ is_master cfg = true) := by
  refine ⟨(if is_master cfg then [RPCall.finishLaunch "RP_Launch"] else []) ++
      [RPCall.terminateService], ?_, ?_, ?_⟩
  · simp [pytest_sessionfinish, hco, hc, hs]
  · simp
  · cases hm : is_master cfg <;> simp [hm]

/-- Witness for `rp_finish_terminates_all` on a configured master. -/
theorem rp_finish_terminates_all_instance :
    ∃ calls, pytest_sessionfinish fullConfig configuredMasterState = .ok calls ∧
      RPCall.terminateService ∈ calls ∧
      ((∃ status, RPCall.finishLaunch status ∈ calls) ↔ is_master fullConfig = true) :=
  rp_finish_terminates_all fullConfig configuredMasterState freshService rfl rfl rfl

/-- Witness for `rp_option_defaults` at the config with nothing supplied. -/
theorem rp_option_defaults_instance :
    get_rp_property emptyConfig "rp_log_batch_size" = .str "20" ∧
    pyInt (get_rp_property emptyConfig "rp_log_batch_size") = .ok 20 ∧
    get_rp_property emptyConfig "rp_mode" = .str "DEFAULT" ∧
    get_rp_property emptyConfig "rp_ignore_errors" = .bool false ∧
    (get_rp_property emptyConfig "rp_ignore_errors").truthy = false ∧
    get_rp_property emptyConfig "rp_launch" = .str "Pytest Launch" ∧
    get_rp_property emptyConfig "rp_launch_description" = .str "" :=
  rp_option_defaults emptyConfig rfl rfl rfl rfl rfl rfl rfl rfl rfl rfl

end RPPlugin
